import Mathlib

/-!
Verification development for the comboi data-pipeline core.

The Python sources under src/ are shallowly embedded as executable Lean
definitions: the GDPR policy engine and value hashing (src/comboi/gdpr.py),
the incremental connectors (src/comboi/connectors/base.py and sap_b1.py),
the quality checks (transformations/quality/customers_quality.py and
orders_quality.py), and the silver stage runner
(src/ducksrvls/pipeline/stages/silver.py).  Hash digests are implemented
bit-for-bit (SHA-256, SHA-512, MD5) over Nat with explicit reductions
modulo 2 to the word width, matching what hashlib computes.
-/

namespace Comboi

/-! ### Bytes, UTF-8 and lowercase hexadecimal encoding -/

/-- UTF-8 encoding of a single Unicode code point, as a list of byte values. -/
def utf8EncodeChar (c : Nat) : List Nat :=
  if c < 0x80 then [c]
  else if c < 0x800 then [0xC0 + c / 64, 0x80 + c % 64]
  else if c < 0x10000 then [0xE0 + c / 4096, 0x80 + (c / 64) % 64, 0x80 + c % 64]
  else [0xF0 + c / 262144, 0x80 + (c / 4096) % 64, 0x80 + (c / 64) % 64, 0x80 + c % 64]

/-- UTF-8 bytes of a string, the Lean counterpart of Python str.encode("utf-8"). -/
def utf8Encode (s : String) : List Nat :=
  s.data.flatMap (fun ch => utf8EncodeChar ch.toNat)

/-- Lowercase hexadecimal digit for a nibble value. -/
def hexDigit (n : Nat) : Char :=
  Char.ofNat (if n < 10 then 48 + n else 87 + n)

/-- Two lowercase hexadecimal digits of one byte. -/
def byteToHex (b : Nat) : List Char :=
  [hexDigit (b / 16), hexDigit (b % 16)]

/-- Lowercase hexadecimal rendering of a byte list, as hexdigest produces. -/
def bytesToHex (bs : List Nat) : String :=
  ⟨bs.flatMap byteToHex⟩

/-- Big-endian byte rendering of a value in n bytes. -/
def beBytes (n v : Nat) : List Nat :=
  (List.range n).map (fun i => (v / 2 ^ (8 * (n - 1 - i))) % 256)

/-- Little-endian byte rendering of a value in n bytes. -/
def leBytes (n v : Nat) : List Nat :=
  (List.range n).map (fun i => (v / 2 ^ (8 * i)) % 256)

/-- Split a list into consecutive chunks of size n; structural recursion
on a fuel bounded by the list length, so that terms reduce
definitionally (the fuel suffices for every positive n). -/
def chunksGo (n : Nat) : Nat → List Nat → List (List Nat)
  | 0, _ => []
  | fuel + 1, l =>
    if l.isEmpty then [] else l.take n :: chunksGo n fuel (l.drop n)

def chunks (n : Nat) (l : List Nat) : List (List Nat) :=
  chunksGo n l.length l

/-- Big-endian word assembly from byte chunks of the given width. -/
def beWords (wbytes : Nat) (bs : List Nat) : List Nat :=
  (chunks wbytes bs).map (fun c => c.foldl (fun acc b => acc * 256 + b) 0)

/-- Little-endian word assembly from 4-byte chunks. -/
def leWords (bs : List Nat) : List Nat :=
  (chunks 4 bs).map (fun c => c.foldr (fun b acc => acc * 256 + b) 0)

/-- Merkle-Damgard padding: append 0x80, zero bytes, then the bit length
of the message rendered big-endian in lenBytes bytes, reaching a multiple
of blockBytes. -/
def padMessageBE (blockBytes lenBytes : Nat) (bs : List Nat) : List Nat :=
  let bitLen := 8 * bs.length
  let withOne := bs ++ [0x80]
  let padZeros := (blockBytes - (withOne.length + lenBytes) % blockBytes) % blockBytes
  withOne ++ List.replicate padZeros 0 ++ beBytes lenBytes bitLen

/-- MD5 padding: like the big-endian variant but the 8-byte bit length is
rendered little-endian. -/
def padMessageLE (bs : List Nat) : List Nat :=
  let bitLen := 8 * bs.length
  let withOne := bs ++ [0x80]
  let padZeros := (64 - (withOne.length + 8) % 64) % 64
  withOne ++ List.replicate padZeros 0 ++ leBytes 8 bitLen

/-! ### SHA-256 over 32-bit words represented as Nat mod 2^32 -/

def w32 : Nat := 2 ^ 32

/-- Rotate a 32-bit word right by n bits. -/
def rotr32 (n x : Nat) : Nat :=
  x / 2 ^ n + x % 2 ^ n * 2 ^ (32 - n)

def sha256K : List Nat :=
  [1116352408, 1899447441, 3049323471, 3921009573, 961987163, 1508970993,
   2453635748, 2870763221, 3624381080, 310598401, 607225278, 1426881987,
   1925078388, 2162078206, 2614888103, 3248222580, 3835390401, 4022224774,
   264347078, 604807628, 770255983, 1249150122, 1555081692, 1996064986,
   2554220882, 2821834349, 2952996808, 3210313671, 3336571891, 3584528711,
   113926993, 338241895, 666307205, 773529912, 1294757372, 1396182291,
   1695183700, 1986661051, 2177026350, 2456956037, 2730485921, 2820302411,
   3259730800, 3345764771, 3516065817, 3600352804, 4094571909, 275423344,
   430227734, 506948616, 659060556, 883997877, 958139571, 1322822218,
   1537002063, 1747873779, 1955562222, 2024104815, 2227730452, 2361852424,
   2428436474, 2756734187, 3204031479, 3329325298]

def sha256H0 : List Nat :=
  [1779033703, 3144134277, 1013904242, 2773480762,
   1359893119, 2600822924, 528734635, 1541459225]

def sha256s0 (x : Nat) : Nat := rotr32 7 x ^^^ rotr32 18 x ^^^ x / 2 ^ 3
def sha256s1 (x : Nat) : Nat := rotr32 17 x ^^^ rotr32 19 x ^^^ x / 2 ^ 10
def sha256S0 (x : Nat) : Nat := rotr32 2 x ^^^ rotr32 13 x ^^^ rotr32 22 x
def sha256S1 (x : Nat) : Nat := rotr32 6 x ^^^ rotr32 11 x ^^^ rotr32 25 x

/-- Extend the 16 message words of one block to the 64-entry schedule. -/
def sha256Schedule (w0 : List Nat) : List Nat :=
  (List.range 48).foldl
    (fun w i =>
      w ++ [(sha256s1 (w.getD (i + 14) 0) + w.getD (i + 9) 0 +
             sha256s0 (w.getD (i + 1) 0) + w.getD i 0) % w32])
    w0

/-- One SHA-256 compression round on the eight working registers. -/
def sha256Round (r : List Nat) (k wt : Nat) : List Nat :=
  match r with
  | [va, vb, vc, vd, ve, vf, vg, vh] =>
    let ch := ve &&& vf ^^^ (ve ^^^ (w32 - 1)) &&& vg
    let t1 := (vh + sha256S1 ve + ch + k + wt) % w32
    let maj := va &&& vb ^^^ va &&& vc ^^^ vb &&& vc
    let t2 := (sha256S0 va + maj) % w32
    [(t1 + t2) % w32, va, vb, vc, (vd + t1) % w32, ve, vf, vg]
  | _ => r

/-- Process one 64-byte block. -/
def sha256Compress (h : List Nat) (block : List Nat) : List Nat :=
  let w := sha256Schedule (beWords 4 block)
  let r := (List.range 64).foldl
    (fun r i => sha256Round r (sha256K.getD i 0) (w.getD i 0)) h
  (h.zip r).map (fun p => (p.1 + p.2) % w32)

/-- SHA-256 digest bytes of a byte message. -/
def sha256Bytes (msg : List Nat) : List Nat :=
  let blocks := chunks 64 (padMessageBE 64 8 msg)
  (blocks.foldl sha256Compress sha256H0).flatMap (beBytes 4)

/-- hashlib.sha256(s.encode("utf-8")).hexdigest() -/
def sha256Hex (s : String) : String :=
  bytesToHex (sha256Bytes (utf8Encode s))

/-! ### SHA-512 over 64-bit words represented as Nat mod 2^64 -/

def w64 : Nat := 2 ^ 64

/-- Rotate a 64-bit word right by n bits. -/
def rotr64 (n x : Nat) : Nat :=
  x / 2 ^ n + x % 2 ^ n * 2 ^ (64 - n)

def sha512K : List Nat :=
  [4794697086780616226, 8158064640168781261, 13096744586834688815, 16840607885511220156,
   4131703408338449720, 6480981068601479193, 10538285296894168987, 12329834152419229976,
   15566598209576043074, 1334009975649890238, 2608012711638119052, 6128411473006802146,
   8268148722764581231, 9286055187155687089, 11230858885718282805, 13951009754708518548,
   16472876342353939154, 17275323862435702243, 1135362057144423861, 2597628984639134821,
   3308224258029322869, 5365058923640841347, 6679025012923562964, 8573033837759648693,
   10970295158949994411, 12119686244451234320, 12683024718118986047, 13788192230050041572,
   14330467153632333762, 15395433587784984357, 489312712824947311, 1452737877330783856,
   2861767655752347644, 3322285676063803686, 5560940570517711597, 5996557281743188959,
   7280758554555802590, 8532644243296465576, 9350256976987008742, 10552545826968843579,
   11727347734174303076, 12113106623233404929, 14000437183269869457, 14369950271660146224,
   15101387698204529176, 15463397548674623760, 17586052441742319658, 1182934255886127544,
   1847814050463011016, 2177327727835720531, 2830643537854262169, 3796741975233480872,
   4115178125766777443, 5681478168544905931, 6601373596472566643, 7507060721942968483,
   8399075790359081724, 8693463985226723168, 9568029438360202098, 10144078919501101548,
   10430055236837252648, 11840083180663258601, 13761210420658862357, 14299343276471374635,
   14566680578165727644, 15097957966210449927, 16922976911328602910, 17689382322260857208,
   500013540394364858, 748580250866718886, 1242879168328830382, 1977374033974150939,
   2944078676154940804, 3659926193048069267, 4368137639120453308, 4836135668995329356,
   5532061633213252278, 6448918945643986474, 6902733635092675308, 7801388544844847127]

def sha512H0 : List Nat :=
  [7640891576956012808, 13503953896175478587, 4354685564936845355, 11912009170470909681,
   5840696475078001361, 11170449401992604703, 2270897969802886507, 6620516959819538809]

def sha512s0 (x : Nat) : Nat := rotr64 1 x ^^^ rotr64 8 x ^^^ x / 2 ^ 7
def sha512s1 (x : Nat) : Nat := rotr64 19 x ^^^ rotr64 61 x ^^^ x / 2 ^ 6
def sha512S0 (x : Nat) : Nat := rotr64 28 x ^^^ rotr64 34 x ^^^ rotr64 39 x
def sha512S1 (x : Nat) : Nat := rotr64 14 x ^^^ rotr64 18 x ^^^ rotr64 41 x

/-- Extend the 16 message words of one block to the 80-entry schedule. -/
def sha512Schedule (w0 : List Nat) : List Nat :=
  (List.range 64).foldl
    (fun w i =>
      w ++ [(sha512s1 (w.getD (i + 14) 0) + w.getD (i + 9) 0 +
             sha512s0 (w.getD (i + 1) 0) + w.getD i 0) % w64])
    w0

/-- One SHA-512 compression round on the eight working registers. -/
def sha512Round (r : List Nat) (k wt : Nat) : List Nat :=
  match r with
  | [va, vb, vc, vd, ve, vf, vg, vh] =>
    let ch := ve &&& vf ^^^ (ve ^^^ (w64 - 1)) &&& vg
    let t1 := (vh + sha512S1 ve + ch + k + wt) % w64
    let maj := va &&& vb ^^^ va &&& vc ^^^ vb &&& vc
    let t2 := (sha512S0 va + maj) % w64
    [(t1 + t2) % w64, va, vb, vc, (vd + t1) % w64, ve, vf, vg]
  | _ => r

/-- Process one 128-byte block. -/
def sha512Compress (h : List Nat) (block : List Nat) : List Nat :=
  let w := sha512Schedule (beWords 8 block)
  let r := (List.range 80).foldl
    (fun r i => sha512Round r (sha512K.getD i 0) (w.getD i 0)) h
  (h.zip r).map (fun p => (p.1 + p.2) % w64)

/-- SHA-512 digest bytes of a byte message. -/
def sha512Bytes (msg : List Nat) : List Nat :=
  let blocks := chunks 128 (padMessageBE 128 16 msg)
  (blocks.foldl sha512Compress sha512H0).flatMap (beBytes 8)

/-- hashlib.sha512(s.encode("utf-8")).hexdigest() -/
def sha512Hex (s : String) : String :=
  bytesToHex (sha512Bytes (utf8Encode s))

/-! ### MD5 over 32-bit words, little-endian -/

/-- Rotate a 32-bit word left by n bits. -/
def rotl32 (n x : Nat) : Nat :=
  x % 2 ^ (32 - n) * 2 ^ n + x / 2 ^ (32 - n)

def md5K : List Nat :=
  [3614090360, 3905402710, 606105819, 3250441966, 4118548399, 1200080426,
   2821735955, 4249261313, 1770035416, 2336552879, 4294925233, 2304563134,
   1804603682, 4254626195, 2792965006, 1236535329, 4129170786, 3225465664,
   643717713, 3921069994, 3593408605, 38016083, 3634488961, 3889429448,
   568446438, 3275163606, 4107603335, 1163531501, 2850285829, 4243563512,
   1735328473, 2368359562, 4294588738, 2272392833, 1839030562, 4259657740,
   2763975236, 1272893353, 4139469664, 3200236656, 681279174, 3936430074,
   3572445317, 76029189, 3654602809, 3873151461, 530742520, 3299628645,
   4096336452, 1126891415, 2878612391, 4237533241, 1700485571, 2399980690,
   4293915773, 2240044497, 1873313359, 4264355552, 2734768916, 1309151649,
   4149444226, 3174756917, 718787259, 3951481745]

def md5S : List Nat :=
  [7, 12, 17, 22, 7, 12, 17, 22, 7, 12, 17, 22, 7, 12, 17, 22,
   5, 9, 14, 20, 5, 9, 14, 20, 5, 9, 14, 20, 5, 9, 14, 20,
   4, 11, 16, 23, 4, 11, 16, 23, 4, 11, 16, 23, 4, 11, 16, 23,
   6, 10, 15, 21, 6, 10, 15, 21, 6, 10, 15, 21, 6, 10, 15, 21]

/-- The MD5 nonlinear function and message index for round i. -/
def md5FG (i b c d : Nat) : Nat × Nat :=
  if i < 16 then (b &&& c ||| (b ^^^ (w32 - 1)) &&& d, i)
  else if i < 32 then (d &&& b ||| (d ^^^ (w32 - 1)) &&& c, (5 * i + 1) % 16)
  else if i < 48 then (b ^^^ c ^^^ d, (3 * i + 5) % 16)
  else (c ^^^ (b ||| (d ^^^ (w32 - 1))), 7 * i % 16)

/-- One MD5 round on the four working registers. -/
def md5Round (m : List Nat) (r : List Nat) (i : Nat) : List Nat :=
  match r with
  | [va, vb, vc, vd] =>
    let fg := md5FG i vb vc vd
    let f := (fg.1 + va + md5K.getD i 0 + m.getD fg.2 0) % w32
    [vd, (vb + rotl32 (md5S.getD i 0) f) % w32, vb, vc]
  | _ => r

/-- Process one 64-byte block. -/
def md5Compress (h : List Nat) (block : List Nat) : List Nat :=
  let m := leWords block
  let r := (List.range 64).foldl (md5Round m) h
  (h.zip r).map (fun p => (p.1 + p.2) % w32)

def md5H0 : List Nat := [1732584193, 4023233417, 2562383102, 271733878]

/-- MD5 digest bytes of a byte message. -/
def md5Bytes (msg : List Nat) : List Nat :=
  let blocks := chunks 64 (padMessageLE msg)
  (blocks.foldl md5Compress md5H0).flatMap (leBytes 4)

/-- hashlib.md5(s.encode("utf-8")).hexdigest() -/
def md5Hex (s : String) : String :=
  bytesToHex (md5Bytes (utf8Encode s))

/-! ### GDPRProcessor.pseudonymize_value (src/comboi/gdpr.py, lines 14-38)

Values are modelled as Option String: none is the Python None, and a
string value is already its canonical string form (str is the identity
on strings), so str(value).encode("utf-8") is utf8Encode.  A raised
ValueError is the Except.error case. -/

def pseudonymize_value (value : Option String) (algorithm : String) :
    Except String (Option String) :=
  if value = none ∨ value = some "" then .ok none
  else
    let sv := value.getD ""
    if algorithm = "sha256" then .ok (some (sha256Hex sv))
    else if algorithm = "sha512" then .ok (some (sha512Hex sv))
    else if algorithm = "md5" then .ok (some (md5Hex sv))
    else .error ("Unsupported hashing algorithm: " ++ algorithm)

/-! ### GDPRProcessor.apply_gdpr_rules (src/comboi/gdpr.py, lines 40-107)

The function builds a SQL SELECT over the source table.  The embedding
keeps the projection structurally: the source columns come in as the
ordered list DESCRIBE yields, and the result is either SELECT * or an
ordered list of select items, each a plain column or a hash expression
ALG(CAST(col AS VARCHAR)) AS col_Hash. -/

structure GdprConfig where
  retain_all : Bool := false
  exclude_columns : List String := []
  pseudonymize : List String := []
  retain : List String := []
  hash_algorithm : String := "sha256"
deriving Repr

/-- One item of the generated SELECT clause. -/
inductive SelectItem where
  /-- The column kept as-is. -/
  | plain (name : String)
  /-- ALG(CAST(name AS VARCHAR)) AS name_Hash. -/
  | hashed (alg : String) (name : String)
deriving DecidableEq, Repr

/-- The output column name an item contributes to the projection. -/
def SelectItem.outName : SelectItem → String
  | .plain n => n
  | .hashed _ n => n ++ "_Hash"

/-- Body of the per-column loop of apply_gdpr_rules: what one source
column contributes to select_parts (none when the loop skips it). -/
def gdprSelectItem (cfg : GdprConfig) (col : String) : Option SelectItem :=
  if col ∈ cfg.exclude_columns then none
  else if col ∈ cfg.pseudonymize then
    (if cfg.hash_algorithm = "sha256" then some (.hashed "sha256" col)
     else if cfg.hash_algorithm = "sha512" then some (.hashed "sha512" col)
     else if cfg.hash_algorithm = "md5" then some (.hashed "md5" col)
     else none)
  else if cfg.retain ≠ [] then
    (if col ∈ cfg.retain then some (.plain col) else none)
  else some (.plain col)

/-- The select_parts accumulation loop over the source columns. -/
def buildSelectParts (cols : List String) (cfg : GdprConfig) : List SelectItem :=
  cols.foldl
    (fun parts col =>
      match gdprSelectItem cfg col with
      | some item => parts ++ [item]
      | none => parts)
    []

/-- The SQL query apply_gdpr_rules returns, kept structurally. -/
inductive GdprQuery where
  /-- SELECT * FROM table (the retain_all branch). -/
  | star
  /-- SELECT parts FROM table. -/
  | select (parts : List SelectItem)
deriving DecidableEq, Repr

/-- apply_gdpr_rules per source: retain_all short-circuits to SELECT *;
otherwise the per-column loop runs and an empty select_parts raises
ValueError. -/
def apply_gdpr_rules (cols : List String) (cfg : GdprConfig) :
    Except String GdprQuery :=
  if cfg.retain_all then .ok .star
  else
    let parts := buildSelectParts cols cfg
    if parts = [] then
      .error "No columns to select after applying GDPR rules"
    else .ok (.select parts)

/-- Output column names of the returned query over the given source
columns. -/
def GdprQuery.outputColumns : GdprQuery → List String → List String
  | .star, cols => cols
  | .select parts, _ => parts.map SelectItem.outName

/-- Value semantics of the emitted hash expression
ALG(CAST(col AS VARCHAR)) for a string-typed column.  Modelled from the
semantics of the analytical engine (DuckDB) the repository executes the
generated SQL on: the scalar hash functions propagate NULL and map every
non-NULL varchar, the empty string included, to the lowercase hex digest
of its bytes. -/
def evalHashExpr (alg : String) (v : Option String) : Option String :=
  v.map (fun s =>
    if alg = "sha256" then sha256Hex s
    else if alg = "sha512" then sha512Hex s
    else md5Hex s)

/-- The decision table of spec section 4.3, written from the words of the
spec for comparison with gdprSelectItem: skip if excluded; if marked for
pseudonymization emit a hash expression renamed with a _Hash suffix;
else with a non-empty retain list include only listed columns; else
include as-is. -/
def specSelectItem (cfg : GdprConfig) (col : String) : Option SelectItem :=
  if col ∈ cfg.exclude_columns then none
  else if col ∈ cfg.pseudonymize then some (.hashed cfg.hash_algorithm col)
  else if cfg.retain ≠ [] then
    (if col ∈ cfg.retain then some (.plain col) else none)
  else some (.plain col)

/-- The hash algorithms the generated SQL supports, the enum of the
PrivacyRule data model. -/
def supportedAlg (a : String) : Bool :=
  a = "sha256" || a = "sha512" || a = "md5"

/-! ### Checkpoint store and connectors

Modelled from the spec: the class comboi.checkpoint.CheckpointStore is
imported by the connectors but its module is not under src/, so the store
follows section 4.1 of the spec: a durable key-to-watermark mapping with
get, and update replacing any prior value for the key.  Watermark values
are modelled as integers, as in the incremental-filter example of the
spec (values 1..5, checkpoint 3); Python truthiness tests on values
become the zero test, and on optional strings the empty test. -/

def CheckpointStore := String → Option Int

def CheckpointStore.get (s : CheckpointStore) (k : String) : Option Int := s k

def CheckpointStore.update (s : CheckpointStore) (k : String) (v : Int) :
    CheckpointStore :=
  fun k2 => if k2 = k then some v else s k2

def CheckpointStore.empty : CheckpointStore := fun _ => none

/-- Python truthiness of an optional integer value. -/
def pyTruthyInt : Option Int → Bool
  | none => false
  | some v => v != 0

/-- Python truthiness of an optional string. -/
def pyTruthyStr : Option String → Bool
  | none => false
  | some s => s != ""

/-- One source row: the value of the incremental column, and the rest of
the row kept opaque. -/
structure Row where
  inc : Int
  payload : String
deriving DecidableEq, Repr

/-- SQL MAX over the incremental column of a row set: NULL on empty
input, the maximum otherwise. -/
def maxInc (rows : List Row) : Option Int :=
  (rows.map Row.inc).max?

/-- BaseConnector._update_checkpoint (src/comboi/connectors/base.py,
lines 110-131): recompute MAX(incremental_column) over the base query,
re-adding the strict watermark filter when a last value exists, and
store it only when the fetched cell is truthy (in particular non-NULL).
SAPB1Connector._update_checkpoint (src/comboi/connectors/sap_b1.py,
lines 181-201) has the same body, receiving the already filtered base
query. -/
def update_checkpoint (store : CheckpointStore) (baseRows : List Row)
    (checkpoint_key : String) (last_value : Option Int) : CheckpointStore :=
  let src :=
    if pyTruthyInt last_value then
      baseRows.filter (fun r => decide (last_value.getD 0 < r.inc))
    else baseRows
  match maxInc src with
  | some m => if m ≠ 0 then store.update checkpoint_key m else store
  | none => store

/-- Result of one export_table call: the checkpoint store after the call
and, on success, the rows materialized at the destination; none when a
ConnectorError propagated out of the call. -/
structure ExportResult where
  store : CheckpointStore
  exported : Option (List Row)

/-- BaseConnector.export_table (src/comboi/connectors/base.py, lines
43-108).  rows is the row set the configured base query yields and
copyFails says whether the extraction or the COPY to the destination
raises; in that case the exception propagates before the checkpoint
update runs. -/
def export_table (store : CheckpointStore) (rows : List Row)
    (checkpoint_key : Option String) (incremental_column : Bool)
    (copyFails : Bool) : ExportResult :=
  let hasCkpt := pyTruthyStr checkpoint_key && incremental_column
  let key := checkpoint_key.getD ""
  let last_value := if hasCkpt then store.get key else none
  let filtered :=
    if pyTruthyInt last_value then
      rows.filter (fun r => decide (last_value.getD 0 < r.inc))
    else rows
  if copyFails then { store := store, exported := none }
  else
    let store2 :=
      if hasCkpt then update_checkpoint store rows key last_value else store
    { store := store2, exported := some filtered }

/-- Result of one SAPB1Connector.export_table call: the store after the
call and, on success, the query shape the COPY ran with plus the rows
the incremental filter kept. -/
structure SapExportResult where
  store : CheckpointStore
  result : Option (GdprQuery × List Row)

/-- SAPB1Connector.export_table (src/comboi/connectors/sap_b1.py, lines
46-157).  The base query reads the source Parquet files (rows, with
columns cols); the incremental filter is applied to it, then GDPR rules
rewrite the projection when enabled and configured (a ValueError from
apply_gdpr_rules propagates before the COPY), then the COPY runs, then
the checkpoint is updated from the already filtered base query. -/
def sap_export_table (store : CheckpointStore) (cols : List String)
    (rows : List Row) (checkpoint_key : Option String)
    (incremental_column : Bool) (apply_gdpr : Bool)
    (gdpr_config : Option GdprConfig) (copyFails : Bool) : SapExportResult :=
  let hasCkpt := pyTruthyStr checkpoint_key && incremental_column
  let key := checkpoint_key.getD ""
  let last_value := if hasCkpt then store.get key else none
  let filtered :=
    if pyTruthyInt last_value && incremental_column then
      rows.filter (fun r => decide (last_value.getD 0 < r.inc))
    else rows
  let finalQuery : Except String GdprQuery :=
    if apply_gdpr then
      match gdpr_config with
      | some cfg => apply_gdpr_rules cols cfg
      | none => .ok .star
    else .ok .star
  match finalQuery with
  | .error _ => { store := store, result := none }
  | .ok q =>
    if copyFails then { store := store, result := none }
    else
      let store2 :=
        if hasCkpt then update_checkpoint store filtered key last_value
        else store
      { store := store2, result := some (q, filtered) }

/-! ### Quality checks (src/transformations/quality/customers_quality.py
and orders_quality.py)

Each check function receives the materialized dataset, evaluates a fixed
list of checks, and aggregates: it fails when the failed list is
non-empty, with a message joining every failed check. -/

/-- One entry of the checks list: name, outcome, detail message. -/
structure CheckResult where
  name : String
  passed : Bool
  detail : String
deriving DecidableEq, Repr

/-- One row of the customers dataset; optional fields are SQL NULLs. -/
structure CustomerRow where
  customer_id : Option Int
  customer_name : Option String
  email : Option String
deriving DecidableEq, Repr

/-- The customers dataset: the column names DESCRIBE yields, and the
rows. -/
structure CustomersDataset where
  columns : List String
  rows : List CustomerRow
deriving DecidableEq, Repr

/-- Number of key groups of size above one, the inner GROUP BY ..
HAVING COUNT(*) > 1 subquery.  SQL groups NULL keys together, as Option
does. -/
def dupGroupCount (keys : List (Option Int)) : Nat :=
  (keys.dedup.filter (fun k => decide (1 < keys.count k))).length

/-- SQL LIKE with pattern percent at percent dot percent: some at sign
occurs with a dot somewhere after it. -/
def likeAtThenDot (s : String) : Bool :=
  ((s.data.dropWhile (fun c => c ≠ '@')).drop 1).contains '.'

/-- SQL LIKE with pattern at-sign percent: the string starts with an at
sign. -/
def likeAtStart (s : String) : Bool :=
  s.data.head? = some '@'

/-- SQL LIKE with pattern percent at-sign: the string ends with an at
sign. -/
def likeAtEnd (s : String) : Bool :=
  s.data.getLast? = some '@'

/-- The WHERE predicate of check 5 of customers_quality: the email is
not NULL and its shape is invalid. -/
def invalidEmail (r : CustomerRow) : Bool :=
  match r.email with
  | none => false
  | some e => !likeAtThenDot e || likeAtStart e || likeAtEnd e

/-- Aggregation shared by both check functions: collect the failures,
fail with their joined messages when any exists, else report that all
checks passed. -/
def aggregateChecks (checks : List CheckResult) : Bool × String :=
  let failed := checks.filter (fun c => !c.passed)
  if failed ≠ [] then
    (false, String.intercalate "; " (failed.map (fun c => c.name ++ ": " ++ c.detail)))
  else
    (true, "All " ++ toString checks.length ++ " checks passed")

/-- The five checks customers_quality.check evaluates, in order. -/
def customersChecks (d : CustomersDataset) : List CheckResult :=
  let rowCount := d.rows.length
  let dupCount := dupGroupCount (d.rows.map CustomerRow.customer_id)
  let requiredColumns := ["customer_id", "customer_name", "email"]
  let missing := requiredColumns.filter (fun c => c ∉ d.columns)
  let nullCount := (d.rows.filter (fun r => r.customer_id = none)).length
  let invalidCount := (d.rows.filter invalidEmail).length
  [⟨"Row count > 0", decide (0 < rowCount), "Found " ++ toString rowCount ++ " rows"⟩,
   ⟨"No duplicate customer_ids", decide (dupCount = 0),
    "Found " ++ toString dupCount ++ " duplicates"⟩,
   ⟨"All required columns present", decide (missing.length = 0),
    if missing ≠ [] then "Missing columns: " ++ String.intercalate ", " missing
    else "All columns present"⟩,
   ⟨"No null customer_ids", decide (nullCount = 0),
    "Found " ++ toString nullCount ++ " null customer_ids"⟩,
   ⟨"Valid email format", decide (invalidCount = 0),
    "Found " ++ toString invalidCount ++ " rows with invalid email format"⟩]

/-- transformations/quality/customers_quality.py check: the evaluated
checks together with the aggregated (passed, message) pair it returns. -/
def customers_check (d : CustomersDataset) :
    List CheckResult × Bool × String :=
  let checks := customersChecks d
  (checks, aggregateChecks checks)

/-- One row of the orders dataset. -/
structure OrderRow where
  order_id : Option Int
  customer_id : Option Int
  order_date : Option String
  order_total : Option Int
  status : Option String
deriving DecidableEq, Repr

/-- The orders dataset. -/
structure OrdersDataset where
  columns : List String
  rows : List OrderRow
deriving DecidableEq, Repr

/-- The five checks orders_quality.check evaluates, in order.  The SQL
predicate order_total <= 0 is NULL-rejecting: a NULL total does not
count. -/
def ordersChecks (d : OrdersDataset) : List CheckResult :=
  let rowCount := d.rows.length
  let dupCount := dupGroupCount (d.rows.map OrderRow.order_id)
  let requiredColumns := ["order_id", "customer_id", "order_date", "order_total", "status"]
  let missing := requiredColumns.filter (fun c => c ∉ d.columns)
  let nullCount := (d.rows.filter (fun r => r.order_id = none)).length
  let negCount := (d.rows.filter (fun r =>
    match r.order_total with
    | some t => decide (t ≤ 0)
    | none => false)).length
  [⟨"Row count > 0", decide (0 < rowCount), "Found " ++ toString rowCount ++ " rows"⟩,
   ⟨"No duplicate order_ids", decide (dupCount = 0),
    "Found " ++ toString dupCount ++ " duplicates"⟩,
   ⟨"All required columns present", decide (missing.length = 0),
    if missing ≠ [] then "Missing columns: " ++ String.intercalate ", " missing
    else "All columns present"⟩,
   ⟨"No null order_ids", decide (nullCount = 0),
    "Found " ++ toString nullCount ++ " null order_ids"⟩,
   ⟨"All order_totals > 0", decide (negCount = 0),
    "Found " ++ toString negCount ++ " rows with order_total <= 0"⟩]

/-- transformations/quality/orders_quality.py check. -/
def orders_check (d : OrdersDataset) : List CheckResult × Bool × String :=
  let checks := ordersChecks d
  (checks, aggregateChecks checks)

/-! ### SilverStage.run (src/ducksrvls/pipeline/stages/silver.py,
lines 22-52)

Per dataset the stage transforms the bronze input, runs the declared
Soda quality scan (raising when any check fails), optionally runs the
Splink deduplication, and only then uploads the candidate to the data
lake.  A raised error propagates out of the loop, so the remaining
datasets of the stage are not processed.  The external collaborators
(transformation execution, scan outcome) enter the model as the
per-dataset outcome flags. -/

/-- One configured silver dataset with the outcomes of its external
collaborators: whether the transformation statements execute without
error, whether a Soda configuration is declared, and whether the scan
reports no failures. -/
structure SilverDataset where
  name : String
  transformOk : Bool
  sodaDeclared : Bool
  sodaOk : Bool
deriving DecidableEq, Repr

/-- The error that aborts the stage run. -/
inductive StageError where
  /-- The transformation statements raised. -/
  | transformError (dataset : String)
  /-- The Soda scan reported failures and the stage raised RuntimeError. -/
  | qualityError (dataset : String)
deriving DecidableEq, Repr

/-- Remote URI the upload for a dataset produces, instantiating the
remote path template with stage silver and source refined. -/
def silverUri (name : String) : String :=
  "silver/refined/" ++ name

/-- Result of a silver stage run: the uploads that happened, in order,
and either the outputs list the method returns or the error that
propagated. -/
structure SilverRunResult where
  uploaded : List String
  result : Except StageError (List String)
deriving Repr

/-- SilverStage.run over the configured datasets, in order. -/
def silver_run : List SilverDataset → SilverRunResult
  | [] => { uploaded := [], result := .ok [] }
  | d :: rest =>
    if !d.transformOk then
      { uploaded := [], result := .error (.transformError d.name) }
    else if d.sodaDeclared && !d.sodaOk then
      { uploaded := [], result := .error (.qualityError d.name) }
    else
      let r := silver_run rest
      { uploaded := silverUri d.name :: r.uploaded,
        result :=
          match r.result with
          | .ok outs => .ok (silverUri d.name :: outs)
          | .error e => .error e }

/-! ### Concrete configurations used by the witnesses -/

/-- The lowercase hexadecimal alphabet. -/
def lowerHexChars : List Char :=
  "0123456789abcdef".data

/-- The policy-projection example of the spec: exclude ssn, pseudonymize
name, retain id. -/
def exampleRule : GdprConfig :=
  { exclude_columns := ["ssn"], pseudonymize := ["name"], retain := ["id"] }

/-- A rule excluding the only column, so the projection comes out empty. -/
def excludeOnlyColumnRule : GdprConfig :=
  { exclude_columns := ["a"] }

/-- A rule marking a column for pseudonymization under an algorithm the
generated SQL does not support. -/
def unsupportedAlgRule : GdprConfig :=
  { pseudonymize := ["name"], hash_algorithm := "sha1" }

/-! ## Theorems -/

/-! ### Digest format lemmas -/

theorem hexDigit_mem_lowerHexChars : ∀ n < 16, hexDigit n ∈ lowerHexChars := by
  decide

theorem byteToHex_mem (b : Nat) (hb : b < 256) :
    ∀ c ∈ byteToHex b, c ∈ lowerHexChars := by
  intro c hc
  have h1 : b / 16 < 16 := by omega
  have h2 : b % 16 < 16 := by omega
  simp only [byteToHex, List.mem_cons, List.mem_singleton] at hc
  rcases hc with h | h | h
  · exact h ▸ hexDigit_mem_lowerHexChars _ h1
  · exact h ▸ hexDigit_mem_lowerHexChars _ h2
  · cases h

theorem beBytes_lt (n v : Nat) : ∀ b ∈ beBytes n v, b < 256 := by
  intro b hb
  simp only [beBytes, List.mem_map] at hb
  obtain ⟨i, _, hi⟩ := hb
  omega

theorem leBytes_lt (n v : Nat) : ∀ b ∈ leBytes n v, b < 256 := by
  intro b hb
  simp only [leBytes, List.mem_map] at hb
  obtain ⟨i, _, hi⟩ := hb
  omega

theorem beBytes_length (n v : Nat) : (beBytes n v).length = n := by
  simp [beBytes]

theorem leBytes_length (n v : Nat) : (leBytes n v).length = n := by
  simp [leBytes]

theorem flatMap_const_length {α β : Type} (f : α → List β) (k : Nat)
    (hf : ∀ x, (f x).length = k) :
    ∀ l : List α, (l.flatMap f).length = k * l.length := by
  intro l
  induction l with
  | nil => rfl
  | cons hd tl ih =>
    simp [List.flatMap_cons, ih, hf hd, Nat.mul_succ, Nat.add_comm]

theorem foldl_length_inv {β : Type} (f : List Nat → β → List Nat)
    (hf : ∀ r b, (f r b).length = r.length) :
    ∀ (l : List β) (r : List Nat), (l.foldl f r).length = r.length := by
  intro l
  induction l with
  | nil => intro r; rfl
  | cons b bs ih => intro r; rw [List.foldl_cons, ih, hf]

theorem sha256Round_length (r : List Nat) (k wt : Nat) :
    (sha256Round r k wt).length = r.length := by
  unfold sha256Round
  split <;> rfl

theorem sha512Round_length (r : List Nat) (k wt : Nat) :
    (sha512Round r k wt).length = r.length := by
  unfold sha512Round
  split <;> rfl

theorem md5Round_length (m r : List Nat) (i : Nat) :
    (md5Round m r i).length = r.length := by
  unfold md5Round
  split <;> rfl

theorem sha256Compress_length (h block : List Nat) :
    (sha256Compress h block).length = h.length := by
  unfold sha256Compress
  rw [List.length_map, List.length_zip,
    foldl_length_inv _ (fun r i => sha256Round_length r _ _), Nat.min_self]

theorem sha512Compress_length (h block : List Nat) :
    (sha512Compress h block).length = h.length := by
  unfold sha512Compress
  rw [List.length_map, List.length_zip,
    foldl_length_inv _ (fun r i => sha512Round_length r _ _), Nat.min_self]

theorem md5Compress_length (h block : List Nat) :
    (md5Compress h block).length = h.length := by
  unfold md5Compress
  rw [List.length_map, List.length_zip,
    foldl_length_inv _ (fun r i => md5Round_length _ r _), Nat.min_self]

theorem sha256Bytes_length (msg : List Nat) : (sha256Bytes msg).length = 32 := by
  unfold sha256Bytes
  rw [flatMap_const_length _ 4 (fun v => beBytes_length 4 v),
    foldl_length_inv _ (fun r b => sha256Compress_length r b)]
  rfl

theorem sha512Bytes_length (msg : List Nat) : (sha512Bytes msg).length = 64 := by
  unfold sha512Bytes
  rw [flatMap_const_length _ 8 (fun v => beBytes_length 8 v),
    foldl_length_inv _ (fun r b => sha512Compress_length r b)]
  rfl

theorem md5Bytes_length (msg : List Nat) : (md5Bytes msg).length = 16 := by
  unfold md5Bytes
  rw [flatMap_const_length _ 4 (fun v => leBytes_length 4 v),
    foldl_length_inv _ (fun r b => md5Compress_length r b)]
  rfl

theorem sha256Bytes_lt (msg : List Nat) : ∀ b ∈ sha256Bytes msg, b < 256 := by
  intro b hb
  unfold sha256Bytes at hb
  rw [List.mem_flatMap] at hb
  obtain ⟨w, _, hw⟩ := hb
  exact beBytes_lt 4 w b hw

theorem sha512Bytes_lt (msg : List Nat) : ∀ b ∈ sha512Bytes msg, b < 256 := by
  intro b hb
  unfold sha512Bytes at hb
  rw [List.mem_flatMap] at hb
  obtain ⟨w, _, hw⟩ := hb
  exact beBytes_lt 8 w b hw

theorem md5Bytes_lt (msg : List Nat) : ∀ b ∈ md5Bytes msg, b < 256 := by
  intro b hb
  unfold md5Bytes at hb
  rw [List.mem_flatMap] at hb
  obtain ⟨w, _, hw⟩ := hb
  exact leBytes_lt 4 w b hw

theorem bytesToHex_length (bs : List Nat) :
    (bytesToHex bs).length = 2 * bs.length := by
  show (bs.flatMap byteToHex).length = 2 * bs.length
  exact flatMap_const_length byteToHex 2 (fun _ => rfl) bs

theorem bytesToHex_chars (bs : List Nat) (hbs : ∀ b ∈ bs, b < 256) :
    ∀ c ∈ (bytesToHex bs).data, c ∈ lowerHexChars := by
  intro c hc
  have hc2 : c ∈ bs.flatMap byteToHex := hc
  rw [List.mem_flatMap] at hc2
  obtain ⟨b, hb, hcb⟩ := hc2
  exact byteToHex_mem b (hbs b hb) c hcb

theorem sha256Hex_length (s : String) : (sha256Hex s).length = 64 := by
  rw [sha256Hex, bytesToHex_length, sha256Bytes_length]

theorem sha512Hex_length (s : String) : (sha512Hex s).length = 128 := by
  rw [sha512Hex, bytesToHex_length, sha512Bytes_length]

theorem md5Hex_length (s : String) : (md5Hex s).length = 32 := by
  rw [md5Hex, bytesToHex_length, md5Bytes_length]

theorem sha256Hex_lowerHex (s : String) :
    ((sha256Hex s).data.all (fun c => decide (c ∈ lowerHexChars))) = true := by
  rw [List.all_eq_true]
  intro c hc
  exact decide_eq_true (bytesToHex_chars _ (sha256Bytes_lt _) c hc)

theorem sha512Hex_lowerHex (s : String) :
    ((sha512Hex s).data.all (fun c => decide (c ∈ lowerHexChars))) = true := by
  rw [List.all_eq_true]
  intro c hc
  exact decide_eq_true (bytesToHex_chars _ (sha512Bytes_lt _) c hc)

theorem md5Hex_lowerHex (s : String) :
    ((md5Hex s).data.all (fun c => decide (c ∈ lowerHexChars))) = true := by
  rw [List.all_eq_true]
  intro c hc
  exact decide_eq_true (bytesToHex_chars _ (md5Bytes_lt _) c hc)

set_option maxRecDepth 100000 in
/-- Known-vector validation of the SHA-256 implementation. -/
theorem sha256Hex_abc :
    sha256Hex "abc" =
      "ba7816bf8f01cfea414140de5dae2223b00361a396177a9cb410ff61f20015ad" := by
  rfl

set_option maxRecDepth 100000 in
/-- Known-vector validation of the SHA-512 implementation. -/
theorem sha512Hex_abc :
    sha512Hex "abc" =
      "ddaf35a193617abacc417349ae20413112e6fa4e89a97ea20a9eeee64b55d39a2192992a274fc1a836ba3c23a3feebbd454d4423643ce80e2a9ac94fa54ca49f" := by
  rfl

set_option maxRecDepth 100000 in
/-- Known-vector validation of the MD5 implementation. -/
theorem md5Hex_abc :
    md5Hex "abc" = "900150983cd24fb0d6963f7d28e17f72" := by
  rfl

/-! ### Policy engine lemmas -/

/-- The select_parts accumulation loop is the ordered filterMap of the
per-column decision. -/
theorem buildSelectParts_eq_filterMap (cols : List String) (cfg : GdprConfig) :
    buildSelectParts cols cfg = cols.filterMap (gdprSelectItem cfg) := by
  have aux : ∀ (cs : List String) (acc : List SelectItem),
      cs.foldl
        (fun parts col =>
          match gdprSelectItem cfg col with
          | some item => parts ++ [item]
          | none => parts)
        acc = acc ++ cs.filterMap (gdprSelectItem cfg) := by
    intro cs
    induction cs with
    | nil => intro acc; simp
    | cons c cs ih =>
      intro acc
      rw [List.foldl_cons, List.filterMap_cons]
      cases h : gdprSelectItem cfg c with
      | none => simp only [h, ih]
      | some item => simp only [h, ih, List.append_assoc, List.singleton_append]
  simpa using aux cols []

/-- Under a supported hash algorithm, the per-column decision of the
code agrees with the decision table written from the spec. -/
theorem gdprSelectItem_eq_spec (cfg : GdprConfig) (col : String)
    (halg : supportedAlg cfg.hash_algorithm = true) :
    gdprSelectItem cfg col = specSelectItem cfg col := by
  simp only [supportedAlg, Bool.or_eq_true, decide_eq_true_eq] at halg
  unfold gdprSelectItem specSelectItem
  rcases halg with (h | h) | h <;> rw [h] <;> simp

/-! ### Quality aggregation lemma -/

/-- The aggregated outcome is the conjunction of the individual checks:
the report fails exactly when some check failed. -/
theorem aggregateChecks_passed (cs : List CheckResult) :
    (aggregateChecks cs).1 = cs.all (fun c => c.passed) := by
  unfold aggregateChecks
  by_cases h : cs.filter (fun c => !c.passed) = []
  · simp only [h, ne_eq, not_true_eq_false, if_false, reduceIte]
    rw [List.filter_eq_nil_iff] at h
    rw [eq_comm, List.all_eq_true]
    intro c hc
    have := h c hc
    simpa using this
  · simp only [ne_eq, h, not_false_eq_true, if_true, reduceIte]
    rw [eq_comm, List.all_eq_false]
    obtain ⟨c, hcf⟩ := List.exists_mem_of_ne_nil _ h
    rw [List.mem_filter] at hcf
    exact ⟨c, hcf.1, by simpa using hcf.2⟩

/-! ### Claim C3 -/

set_option maxRecDepth 400000 in
/-- C3 counterexample: the hash expression the policy engine emits for a
pseudonymized column maps the empty string to the fixed SHA-256 digest
of the empty input, not to NULL, while the Python hashing function maps
the empty string to None; so the stated contract does not hold for the
emitted expressions. -/
theorem C3_emitted_expression_empty_string :
    evalHashExpr "sha256" (some "") =
      some "e3b0c44298fc1c149afbf4c8996fb92427ae41e4649b934ca495991b7852b855" ∧
    pseudonymize_value (some "") "sha256" = Except.ok none := by
  exact ⟨rfl, rfl⟩

/-- C3 (amended): pseudonymize_value maps None and the empty string to
None and any non-empty value to the lowercase hexadecimal digest of the
selected algorithm over the UTF-8 bytes of the value, deterministically;
the emitted SQL hash expressions propagate NULL and map every non-NULL
value, the empty string included, to the digest of its string form. -/
theorem C3_hash_contract (v : String) (hv : v ≠ "") (alg : String) :
    pseudonymize_value none alg = Except.ok none ∧
    pseudonymize_value (some "") alg = Except.ok none ∧
    pseudonymize_value (some v) "sha256" = Except.ok (some (sha256Hex v)) ∧
    pseudonymize_value (some v) "sha512" = Except.ok (some (sha512Hex v)) ∧
    pseudonymize_value (some v) "md5" = Except.ok (some (md5Hex v)) ∧
    evalHashExpr alg none = none ∧
    evalHashExpr "sha256" (some v) = some (sha256Hex v) ∧
    evalHashExpr "sha512" (some v) = some (sha512Hex v) ∧
    evalHashExpr "md5" (some v) = some (md5Hex v) ∧
    (sha256Hex v).length = 64 ∧
    (sha512Hex v).length = 128 ∧
    (md5Hex v).length = 32 ∧
    (sha256Hex v).data.all (fun c => decide (c ∈ lowerHexChars)) = true ∧
    (sha512Hex v).data.all (fun c => decide (c ∈ lowerHexChars)) = true ∧
    (md5Hex v).data.all (fun c => decide (c ∈ lowerHexChars)) = true := by
  refine ⟨rfl, rfl, ?_, ?_, ?_, rfl, ?_, ?_, ?_,
    sha256Hex_length v, sha512Hex_length v, md5Hex_length v,
    sha256Hex_lowerHex v, sha512Hex_lowerHex v, md5Hex_lowerHex v⟩
  · simp [pseudonymize_value, hv]
  · simp [pseudonymize_value, hv]
  · simp [pseudonymize_value, hv]
  · simp [evalHashExpr]
  · simp [evalHashExpr]
  · simp [evalHashExpr]

set_option maxRecDepth 400000 in
/-- C3 witness at the spec test vector "abc". -/
theorem C3_hash_contract_witness :
    ("abc" : String) ≠ "" ∧
    pseudonymize_value (some "abc") "sha256" = Except.ok (some (sha256Hex "abc")) ∧
    (sha256Hex "abc").length = 64 ∧
    (sha256Hex "abc").data.all (fun c => decide (c ∈ lowerHexChars)) = true := by
  obtain ⟨-, -, h3, -, -, -, -, -, -, hlen, -, -, hhex, -, -⟩ :=
    C3_hash_contract "abc" (by decide) "sha256"
  exact ⟨by decide, h3, hlen, hhex⟩

/-! ### Claim C4 -/

/-- C4: with retain_all false and a supported hash algorithm, the policy
engine processes the source columns in order through the decision table
of the spec (exclude, then pseudonymize with a _Hash rename, then
retain-list, then default-include), failing only when the projection
comes out empty. -/
theorem C4_policy_projection (cols : List String) (cfg : GdprConfig)
    (hra : cfg.retain_all = false)
    (halg : supportedAlg cfg.hash_algorithm = true) :
    apply_gdpr_rules cols cfg =
      (if cols.filterMap (specSelectItem cfg) = [] then
         Except.error "No columns to select after applying GDPR rules"
       else Except.ok (.select (cols.filterMap (specSelectItem cfg)))) := by
  have hfun : gdprSelectItem cfg = specSelectItem cfg :=
    funext (fun c => gdprSelectItem_eq_spec cfg c halg)
  simp only [apply_gdpr_rules, hra, Bool.false_eq_true, if_false,
    buildSelectParts_eq_filterMap, hfun]

/-- C4 witness: the policy-projection example of the spec. -/
theorem C4_policy_projection_witness :
    apply_gdpr_rules ["id", "name", "ssn", "email"] exampleRule =
      Except.ok (.select [.plain "id", .hashed "sha256" "name"]) ∧
    GdprQuery.outputColumns (.select [.plain "id", .hashed "sha256" "name"])
      ["id", "name", "ssn", "email"] = ["id", "name_Hash"] := by
  have h := C4_policy_projection ["id", "name", "ssn", "email"] exampleRule rfl rfl
  exact ⟨h.trans (by rfl), by rfl⟩

/-! ### Claim C5 -/

/-- C5: with retain_all true the policy engine returns SELECT *, the
identity projection, whatever the other rule fields hold. -/
theorem C5_retain_all_identity (cols ex ps rt : List String) (alg : String) :
    apply_gdpr_rules cols
      { retain_all := true, exclude_columns := ex, pseudonymize := ps,
        retain := rt, hash_algorithm := alg } = Except.ok .star ∧
    GdprQuery.outputColumns .star cols = cols :=
  ⟨rfl, rfl⟩

/-! ### Claim C6 -/

/-- C6: the policy engine never returns an empty projection over a
non-empty source column list; when the per-column loop keeps nothing and
retain_all is off, it fails instead. -/
theorem C6_empty_projection_error (cols : List String) (cfg : GdprConfig)
    (hcols : cols ≠ []) :
    (apply_gdpr_rules cols cfg).map (fun q => q.outputColumns cols) ≠
      Except.ok [] ∧
    (cfg.retain_all = false → buildSelectParts cols cfg = [] →
      apply_gdpr_rules cols cfg =
        Except.error "No columns to select after applying GDPR rules") := by
  constructor
  · unfold apply_gdpr_rules
    by_cases hra : cfg.retain_all
    · simp [hra, Except.map, GdprQuery.outputColumns, hcols]
    · by_cases hparts : buildSelectParts cols cfg = []
      · simp [hra, hparts, Except.map]
      · simp [hra, hparts, Except.map, GdprQuery.outputColumns]
  · intro hra hparts
    simp [apply_gdpr_rules, hra, hparts]

/-- C6 witness: excluding the only column yields the PolicyError, not an
empty projection. -/
theorem C6_empty_projection_error_witness :
    (["a"] : List String) ≠ [] ∧
    (apply_gdpr_rules ["a"] excludeOnlyColumnRule).map
      (fun q => q.outputColumns ["a"]) ≠ Except.ok [] ∧
    apply_gdpr_rules ["a"] excludeOnlyColumnRule =
      Except.error "No columns to select after applying GDPR rules" := by
  have h := C6_empty_projection_error ["a"] excludeOnlyColumnRule (by decide)
  exact ⟨by decide, h.1, h.2 rfl rfl⟩

/-! ### Claim C10 -/

/-- C10: under an unsupported hash algorithm a column marked for
pseudonymization contributes nothing to the projection, the engine
reports no error as long as the remaining projection is non-empty, yet
the value-level hashing function raises for the same algorithm. -/
theorem C10_unsupported_algorithm (cfg : GdprConfig) (col : String)
    (cols : List String) (v : String)
    (halg : supportedAlg cfg.hash_algorithm = false)
    (hp : col ∈ cfg.pseudonymize) (hx : col ∉ cfg.exclude_columns)
    (hv : v ≠ "") :
    gdprSelectItem cfg col = none ∧
    buildSelectParts cols cfg = cols.filterMap (gdprSelectItem cfg) ∧
    (cfg.retain_all = false → buildSelectParts cols cfg ≠ [] →
      apply_gdpr_rules cols cfg =
        Except.ok (.select (buildSelectParts cols cfg))) ∧
    pseudonymize_value (some v) cfg.hash_algorithm =
      Except.error ("Unsupported hashing algorithm: " ++ cfg.hash_algorithm) := by
  simp only [supportedAlg, Bool.or_eq_false_iff, decide_eq_false_iff_not] at halg
  obtain ⟨⟨h1, h2⟩, h3⟩ := halg
  refine ⟨?_, buildSelectParts_eq_filterMap cols cfg, ?_, ?_⟩
  · simp [gdprSelectItem, hx, hp, h1, h2, h3]
  · intro hra hne
    simp [apply_gdpr_rules, hra, hne]
  · simp [pseudonymize_value, hv, h1, h2, h3]

/-- C10 witness under the algorithm sha1. -/
theorem C10_unsupported_algorithm_witness :
    gdprSelectItem unsupportedAlgRule "name" = none ∧
    apply_gdpr_rules ["id", "name"] unsupportedAlgRule =
      Except.ok (.select [.plain "id"]) ∧
    pseudonymize_value (some "x") "sha1" =
      Except.error "Unsupported hashing algorithm: sha1" := by
  have h := C10_unsupported_algorithm unsupportedAlgRule "name" ["id", "name"] "x"
    (by rfl) (by simp [unsupportedAlgRule]) (by simp [unsupportedAlgRule]) (by decide)
  refine ⟨h.1, ?_, ?_⟩
  · exact (h.2.2.1 rfl (by decide)).trans (by rfl)
  · exact h.2.2.2.trans (by rfl)

/-! ### Claim C1 -/

/-- C1 counterexample: with committed watermark -1 and one source row of
incremental value 0, the export emits the row, the maximum over the
exported rows is 0, yet the truthiness guard of _update_checkpoint skips
the commit, so the post-export checkpoint is not that maximum. -/
theorem C1_zero_maximum_not_committed :
    (export_table (CheckpointStore.empty.update "k" (-1)) [⟨0, "r"⟩]
      (some "k") true false).exported = some [⟨0, "r"⟩] ∧
    maxInc [(⟨0, "r"⟩ : Row)] = some 0 ∧
    (export_table (CheckpointStore.empty.update "k" (-1)) [⟨0, "r"⟩]
      (some "k") true false).store "k" = some (-1) :=
  ⟨rfl, rfl, rfl⟩

/-- C1 (amended): an incremental export with a committed truthy
watermark L extracts exactly the rows whose incremental value is
strictly above L, and the post-export checkpoint equals the maximum
incremental value over the exported rows whenever that maximum is
non-zero; an empty export, or a maximum of exactly zero (Python-falsy),
leaves the checkpoint at L. -/
theorem C1_incremental_export (store : CheckpointStore) (k : String)
    (L : Int) (rows : List Row) (hk : k ≠ "") (hL : store k = some L)
    (hL0 : L ≠ 0) :
    (export_table store rows (some k) true false).exported =
      some (rows.filter (fun r => decide (L < r.inc))) ∧
    (export_table store rows (some k) true false).store k =
      (match maxInc (rows.filter (fun r => decide (L < r.inc))) with
       | some m => if m = 0 then some L else some m
       | none => some L) := by
  have hkb : pyTruthyStr (some k) = true := by
    simp [pyTruthyStr, hk]
  have hLb : pyTruthyInt (some L) = true := by
    simp [pyTruthyInt, hL0]
  simp only [export_table, hkb, Bool.true_and, Bool.and_true, if_true,
    Bool.false_eq_true, if_false, Option.getD_some, CheckpointStore.get, hL,
    hLb, update_checkpoint]
  refine ⟨trivial, ?_⟩
  cases hm : maxInc (rows.filter (fun r => decide (L < r.inc))) with
  | none => simpa [hm] using hL
  | some m =>
    by_cases hm0 : m = 0
    · simpa [hm, hm0] using hL
    · simp [hm, hm0, CheckpointStore.update]

/-- C1 witness: the incremental-filter example of the spec, source
values 1..5 against checkpoint 3. -/
theorem C1_incremental_export_witness :
    (export_table (CheckpointStore.empty.update "k" 3)
      [⟨1, "a"⟩, ⟨2, "b"⟩, ⟨3, "c"⟩, ⟨4, "d"⟩, ⟨5, "e"⟩]
      (some "k") true false).exported = some [⟨4, "d"⟩, ⟨5, "e"⟩] ∧
    (export_table (CheckpointStore.empty.update "k" 3)
      [⟨1, "a"⟩, ⟨2, "b"⟩, ⟨3, "c"⟩, ⟨4, "d"⟩, ⟨5, "e"⟩]
      (some "k") true false).store "k" = some 5 := by
  have h := C1_incremental_export (CheckpointStore.empty.update "k" 3) "k" 3
    [⟨1, "a"⟩, ⟨2, "b"⟩, ⟨3, "c"⟩, ⟨4, "d"⟩, ⟨5, "e"⟩]
    (by decide) (by rfl) (by decide)
  exact ⟨h.1.trans (by rfl), h.2.trans (by rfl)⟩

/-! ### Claim C2 -/

/-- C2: an extraction or materialization failure (ConnectorError), or a
ValueError raised by the policy engine inside the SAP B1 connector,
propagates out of export_table and leaves the checkpoint store exactly
as it was before the call. -/
theorem C2_error_leaves_checkpoint (store : CheckpointStore)
    (rows : List Row) (key : Option String) (inc : Bool)
    (cols : List String) (ag : Bool) (cfgO : Option GdprConfig)
    (cfg : GdprConfig) (e : String) (cf : Bool)
    (hcfg : cfgO = some cfg) (herr : apply_gdpr_rules cols cfg = .error e) :
    ((export_table store rows key inc true).store = store ∧
     (export_table store rows key inc true).exported = none) ∧
    ((sap_export_table store cols rows key inc ag cfgO true).store = store ∧
     (sap_export_table store cols rows key inc ag cfgO true).result = none) ∧
    ((sap_export_table store cols rows key inc true cfgO cf).store = store ∧
     (sap_export_table store cols rows key inc true cfgO cf).result = none) := by
  refine ⟨⟨rfl, rfl⟩, ?_, ?_⟩
  · cases ag with
    | false => constructor <;> simp [sap_export_table]
    | true =>
      cases cfgO with
      | none => constructor <;> simp [sap_export_table]
      | some cfg2 =>
        cases h2 : apply_gdpr_rules cols cfg2 with
        | error e2 => constructor <;> simp [sap_export_table, h2]
        | ok q => constructor <;> simp [sap_export_table, h2]
  · subst hcfg
    constructor <;> simp [sap_export_table, herr]

/-- C2 witness: a COPY failure on the base connector and an
empty-projection policy failure on the SAP B1 connector, both with a
committed checkpoint. -/
theorem C2_error_leaves_checkpoint_witness :
    ((export_table (CheckpointStore.empty.update "k" 3) [⟨1, "p"⟩]
        (some "k") true true).store = CheckpointStore.empty.update "k" 3 ∧
     (export_table (CheckpointStore.empty.update "k" 3) [⟨1, "p"⟩]
        (some "k") true true).exported = none) ∧
    ((sap_export_table (CheckpointStore.empty.update "k" 3) ["a"] [⟨1, "p"⟩]
        (some "k") true true (some excludeOnlyColumnRule) true).store =
      CheckpointStore.empty.update "k" 3 ∧
     (sap_export_table (CheckpointStore.empty.update "k" 3) ["a"] [⟨1, "p"⟩]
        (some "k") true true (some excludeOnlyColumnRule) true).result = none) ∧
    ((sap_export_table (CheckpointStore.empty.update "k" 3) ["a"] [⟨1, "p"⟩]
        (some "k") true true (some excludeOnlyColumnRule) false).store =
      CheckpointStore.empty.update "k" 3 ∧
     (sap_export_table (CheckpointStore.empty.update "k" 3) ["a"] [⟨1, "p"⟩]
        (some "k") true true (some excludeOnlyColumnRule) false).result = none) :=
  C2_error_leaves_checkpoint (CheckpointStore.empty.update "k" 3) [⟨1, "p"⟩]
    (some "k") true ["a"] true (some excludeOnlyColumnRule)
    excludeOnlyColumnRule "No columns to select after applying GDPR rules"
    false rfl (by rfl)

/-! ### Claim C9 -/

/-- C9: an incremental export whose strict watermark filter keeps no
rows computes a NULL maximum and leaves the whole checkpoint store
untouched; and _update_checkpoint, shared by both connectors, never
commits an absent or falsy watermark: after it runs, every key either
keeps its previous value or holds a non-zero committed maximum. -/
theorem C9_empty_run_checkpoint_frame (store : CheckpointStore)
    (k : String) (L : Int) (rows : List Row) (hk : k ≠ "")
    (hL : store k = some L) (hL0 : L ≠ 0)
    (hempty : rows.filter (fun r => decide (L < r.inc)) = []) :
    (export_table store rows (some k) true false).store = store ∧
    (export_table store rows (some k) true false).exported = some [] ∧
    ∀ (s : CheckpointStore) (rs : List Row) (key : String) (l : Option Int)
      (k2 : String),
      update_checkpoint s rs key l k2 = s k2 ∨
      ∃ m, m ≠ 0 ∧ update_checkpoint s rs key l k2 = some m := by
  have hkb : pyTruthyStr (some k) = true := by
    simp [pyTruthyStr, hk]
  have hLb : pyTruthyInt (some L) = true := by
    simp [pyTruthyInt, hL0]
  refine ⟨?_, ?_, ?_⟩
  · simp only [export_table, hkb, Bool.true_and, Bool.and_true, if_true,
      Bool.false_eq_true, if_false, Option.getD_some, CheckpointStore.get, hL,
      hLb, update_checkpoint, hempty]
    rfl
  · simp only [export_table, hkb, Bool.true_and, Bool.and_true, if_true,
      Bool.false_eq_true, if_false, Option.getD_some, CheckpointStore.get, hL,
      hLb, hempty]
  · intro s rs key l k2
    unfold update_checkpoint
    cases hm : maxInc (if pyTruthyInt l then
        rs.filter (fun r => decide (l.getD 0 < r.inc)) else rs) with
    | none => exact Or.inl rfl
    | some m =>
      by_cases hm0 : m = 0
      · simp [hm, hm0]
      · by_cases hkey : k2 = key
        · exact Or.inr ⟨m, hm0, by simp [hm, hm0, CheckpointStore.update, hkey]⟩
        · exact Or.inl (by simp [hm, hm0, CheckpointStore.update, hkey])

/-- C9 witness: no source row is above the committed watermark 3, so the
store is unchanged and the export is empty. -/
theorem C9_empty_run_checkpoint_frame_witness :
    ([⟨1, "a"⟩, ⟨2, "b"⟩, ⟨3, "c"⟩] : List Row).filter
      (fun r => decide ((3 : Int) < r.inc)) = [] ∧
    (export_table (CheckpointStore.empty.update "k" 3)
      [⟨1, "a"⟩, ⟨2, "b"⟩, ⟨3, "c"⟩] (some "k") true false).store =
      CheckpointStore.empty.update "k" 3 ∧
    (export_table (CheckpointStore.empty.update "k" 3)
      [⟨1, "a"⟩, ⟨2, "b"⟩, ⟨3, "c"⟩] (some "k") true false).exported =
      some [] := by
  have h := C9_empty_run_checkpoint_frame (CheckpointStore.empty.update "k" 3)
    "k" 3 [⟨1, "a"⟩, ⟨2, "b"⟩, ⟨3, "c"⟩] (by decide) (by rfl) (by decide)
    (by rfl)
  exact ⟨by rfl, h.1, h.2.1⟩

/-! ### Claim C7 -/

/-- C7: both quality check functions evaluate every declared check and
aggregate over the full list, never stopping at the first failure: the
reported check names are the five declared ones in order, the overall
outcome is the conjunction of the individual outcomes (failed exactly
when at least one check failed), and on an empty dataset the row-count
floor check fails and the gate fails. -/
theorem C7_quality_gate_full_report (dc : CustomersDataset)
    (dor : OrdersDataset) (cols cols2 : List String) :
    (customers_check dc).1.map CheckResult.name =
      ["Row count > 0", "No duplicate customer_ids",
       "All required columns present", "No null customer_ids",
       "Valid email format"] ∧
    (customers_check dc).2.1 =
      (customers_check dc).1.all (fun c => c.passed) ∧
    (orders_check dor).1.map CheckResult.name =
      ["Row count > 0", "No duplicate order_ids",
       "All required columns present", "No null order_ids",
       "All order_totals > 0"] ∧
    (orders_check dor).2.1 = (orders_check dor).1.all (fun c => c.passed) ∧
    (customers_check ⟨cols, []⟩).2.1 = false ∧
    (customers_check ⟨cols, []⟩).1.head?.map CheckResult.passed =
      some false ∧
    (orders_check ⟨cols2, []⟩).2.1 = false := by
  refine ⟨rfl, aggregateChecks_passed (customersChecks dc), rfl,
    aggregateChecks_passed (ordersChecks dor), ?_, rfl, ?_⟩
  · calc (customers_check ⟨cols, []⟩).2.1
        = (customersChecks ⟨cols, []⟩).all (fun c => c.passed) :=
          aggregateChecks_passed (customersChecks ⟨cols, []⟩)
      _ = false := by simp [customersChecks, List.all_cons]
  · calc (orders_check ⟨cols2, []⟩).2.1
        = (ordersChecks ⟨cols2, []⟩).all (fun c => c.passed) :=
          aggregateChecks_passed (ordersChecks ⟨cols2, []⟩)
      _ = false := by simp [ordersChecks, List.all_cons]

/-! ### Claim C8 -/

/-- C8: the first quality rejection in a silver stage run aborts the
stage: the rejected candidate is never uploaded, no dataset after it is
processed or published, and exactly the datasets before it were
uploaded; the error propagates as the stage outcome. -/
theorem C8_stage_fail_fast (pre : List SilverDataset) (d : SilverDataset)
    (rest : List SilverDataset)
    (hpre : ∀ p ∈ pre, p.transformOk = true ∧
      (p.sodaDeclared = true → p.sodaOk = true))
    (htr : d.transformOk = true) (hsd : d.sodaDeclared = true)
    (hfail : d.sodaOk = false) :
    (silver_run (pre ++ d :: rest)).uploaded =
      pre.map (fun p => silverUri p.name) ∧
    (silver_run (pre ++ d :: rest)).result =
      Except.error (.qualityError d.name) := by
  induction pre with
  | nil =>
    constructor <;> simp [silver_run, htr, hsd, hfail]
  | cons p ps ih =>
    have hp := hpre p (List.mem_cons_self p ps)
    have ihh := ih (fun q hq => hpre q (List.mem_cons_of_mem p hq))
    have hcond : (p.sodaDeclared && !p.sodaOk) = false := by
      cases hdecl : p.sodaDeclared with
      | false => rfl
      | true => simp [hp.2 hdecl]
    constructor <;>
      simp [silver_run, hp.1, hcond, ihh.1, ihh.2]

/-- C8 witness: of three datasets the second fails its quality checks;
only the first is uploaded and the stage aborts with its rejection. -/
theorem C8_stage_fail_fast_witness :
    (silver_run [⟨"a", true, true, true⟩, ⟨"b", true, true, false⟩,
      ⟨"c", true, true, true⟩]).uploaded = ["silver/refined/a"] ∧
    (silver_run [⟨"a", true, true, true⟩, ⟨"b", true, true, false⟩,
      ⟨"c", true, true, true⟩]).result =
      Except.error (.qualityError "b") := by
  have h := C8_stage_fail_fast [⟨"a", true, true, true⟩]
    ⟨"b", true, true, false⟩ [⟨"c", true, true, true⟩]
    (by decide) rfl rfl rfl
  exact ⟨h.1.trans (by rfl), h.2⟩

end Comboi
